import Mathlib

/-!
Verification development for the HVAC catalog RAG pipeline
(src/app/api/rag/process-pdf/route.ts and src/app/api/rag/ask/route.ts).

The TypeScript sources are shallowly embedded:
* JS strings become `List Char`; JS string indices (which may be fractional
  after JS arithmetic, and are truncated by `slice` / `lastIndexOf`) are
  modelled as `ℚ` with explicit truncation, matching the ToIntegerOrInfinity
  coercion of the JS spec.
* JS numbers are modelled as exact rationals `ℚ`.  The only place the source
  leaves rational arithmetic is the final cosine-similarity score
  `dot / (sqrt normA * sqrt normB)`; we keep the exact triple
  `(dot, normA, normB)` and compare scores with an exact decidable order
  (see `simScoreLE`), which agrees with the real-number comparison.
* External services (PDF download, PDF parsing, the embedding provider, the
  generation provider, the database) are modelled as explicit oracles /
  environment records; the database table is a `List StoredChunk`.
* Fallible code returns `Except`; per-call try/catch blocks are modelled by
  matching on the `Except` value.
-/

/- The Batteries rational operations are `@[irreducible]`, which blocks the
elaborator when concrete witnesses are evaluated with `decide` / `rfl`; make
them unfold again (the kernel is unaffected by reducibility attributes). -/
attribute [local semireducible] Rat.add Rat.mul Rat.sub Rat.inv Rat.ofScientific

/-- JS `String.prototype.trim`: drop leading and trailing whitespace. -/
def trimChars (l : List Char) : List Char :=
  ((l.dropWhile Char.isWhitespace).reverse.dropWhile Char.isWhitespace).reverse

/-- Truncation of a JS number used as a string index (ToIntegerOrInfinity
followed by the clamp at 0 that `slice` and `lastIndexOf` perform on the
indices we reach): negative values clamp to 0, positive values truncate. -/
def ratTruncToNat (q : ℚ) : ℕ :=
  if q ≤ 0 then 0 else q.floor.toNat

/-- JS `text.slice(a, b)` for `0 ≤ a` and `b ≤ text.length`. -/
def jsSlice (text : List Char) (a b : ℚ) : List Char :=
  (text.take (ratTruncToNat b)).drop (ratTruncToNat a)

/-- JS `text.lastIndexOf(pat, fromIndex)`: the greatest start position
`p ≤ fromIndex` at which `pat` occurs, or `-1` when there is none. -/
def jsLastIndexOf (text pat : List Char) (fromIndex : ℚ) : ℚ :=
  let pos : ℕ := min (ratTruncToNat fromIndex) text.length
  match (List.range (pos + 1)).reverse.find? (fun p => pat.isPrefixOf (text.drop p)) with
  | some p => (p : ℚ)
  | none => -1

/-- Insertion of an element into a list relative to a boolean comparator
(used to model `Array.prototype.sort`, whose exact order the claims do not
depend on beyond it being a permutation). -/
def insertSorted {α : Type} (le : α → α → Bool) (x : α) : List α → List α
  | [] => [x]
  | y :: ys => if le x y then x :: y :: ys else y :: insertSorted le x ys

/-- Insertion sort relative to a boolean comparator. -/
def insertionSort {α : Type} (le : α → α → Bool) : List α → List α
  | [] => []
  | x :: xs => insertSorted le x (insertionSort le xs)

theorem mem_insertSorted {α : Type} (le : α → α → Bool) (x a : α) (l : List α) :
    a ∈ insertSorted le x l ↔ a ∈ x :: l := by
  induction l with
  | nil => simp [insertSorted]
  | cons y ys ih =>
    simp only [insertSorted]
    split
    · simp
    · simp only [List.mem_cons, ih, List.mem_cons]
      tauto

theorem mem_insertionSort {α : Type} (le : α → α → Bool) (a : α) (l : List α) :
    a ∈ insertionSort le l ↔ a ∈ l := by
  induction l with
  | nil => simp [insertionSort]
  | cons x xs ih =>
    simp only [insertionSort, mem_insertSorted, List.mem_cons, ih]

/-! ## Chunker (`splitTextIntoChunks`, process-pdf/route.ts lines 40-141) -/

/-- Clamp of the target chunk size: `Math.max(100, Math.min(maxChunkSize, 10000))`. -/
def effectiveChunkSize (maxChunkSize : ℚ) : ℚ :=
  max 100 (min maxChunkSize 10000)

/-- Clamp of the overlap: `Math.max(0, Math.min(overlap, maxChunkSize * 0.5))`,
applied after the size clamp. -/
def effectiveOverlap (maxChunkSize overlap : ℚ) : ℚ :=
  max 0 (min overlap (effectiveChunkSize maxChunkSize * (1 / 2)))

/-- Iteration safety ceiling:
`Math.ceil(text.length / (maxChunkSize - overlap)) + 10` with the clamped
parameters. -/
def chunkIterationCeiling (text : List Char) (maxChunkSize overlap : ℚ) : ℕ :=
  (⌈(text.length : ℚ) / (effectiveChunkSize maxChunkSize - effectiveOverlap maxChunkSize overlap)⌉ + 10).toNat

/-- The break-point search (lines 70-96): look backward from the naive end for
a paragraph break, a line break, a period-plus-space, or any period, and
return the adjusted break point, or `-1` when no candidate beats `searchStart`. -/
def breakPointAt (text : List Char) (searchEnd searchStart : ℚ) : ℚ :=
  let lastNewline := jsLastIndexOf text ['\n', '\n'] searchEnd
  let lastSingleNewline := jsLastIndexOf text ['\n'] searchEnd
  let lastPeriod := jsLastIndexOf text ['.', ' '] searchEnd
  let lastDot := jsLastIndexOf text ['.'] searchEnd
  if lastNewline > searchStart then lastNewline + 2
  else if lastSingleNewline > searchStart then lastSingleNewline + 1
  else if lastPeriod > searchStart then lastPeriod + 2
  else if lastDot > searchStart then lastDot + 1
  else -1

/-- The start-offset update at the bottom of the chunking loop
(lines 115-128): advance to `endIndex - overlap`, force progress by
`max(1, maxChunkSize - overlap)` when that does not strictly advance, and
apply the defensive negative check. -/
def nextStartIndex (startIndex endIndex maxChunkSize overlap : ℚ) : ℚ :=
  let nextStart := endIndex - overlap
  let s := if nextStart ≤ startIndex then startIndex + max 1 (maxChunkSize - overlap) else nextStart
  if s < 0 then endIndex else s

/-- One-chunk-per-iteration loop of `splitTextIntoChunks` (lines 63-129).
`fuel` is the number of iterations the safety ceiling still allows
(`maxIterations - iterationCount`); the `while` guard
`startIndex < text.length && iterationCount < maxIterations` becomes the
`fuel` pattern match plus the `startIndex < len` test. -/
def chunkLoop (text : List Char) (maxChunkSize overlap : ℚ) :
    ℕ → ℚ → List (List Char) → List (List Char)
  | 0, _, acc => acc
  | fuel + 1, startIndex, acc =>
    let len : ℚ := text.length
    if startIndex < len then
      let endNaive := min (startIndex + maxChunkSize) len
      let endIndex :=
        if endNaive < len then
          let searchStart := max startIndex (endNaive - maxChunkSize)
          let bp := breakPointAt text endNaive searchStart
          if bp > startIndex + maxChunkSize * (3 / 10) then bp else endNaive
        else endNaive
      if startIndex ≥ endIndex ∨ startIndex < 0 ∨ endIndex > len then acc
      else
        let chunk := trimChars (jsSlice text startIndex endIndex)
        let acc' := if chunk.length > 0 then acc ++ [chunk] else acc
        chunkLoop text maxChunkSize overlap fuel (nextStartIndex startIndex endIndex maxChunkSize overlap) acc'
    else acc

/-- `splitTextIntoChunks(text, maxChunkSize = 1000, overlap = 100)`
(process-pdf/route.ts lines 40-141): parameter clamping, the chunking loop,
and the defensive post-filter dropping empty or oversized chunks. -/
def splitTextIntoChunks (text : List Char) (maxChunkSize : ℚ := 1000) (overlap : ℚ := 100) :
    List (List Char) :=
  if text.isEmpty then []
  else
    let size := effectiveChunkSize maxChunkSize
    let chunks := chunkLoop text size (effectiveOverlap maxChunkSize overlap)
      (chunkIterationCeiling text maxChunkSize overlap) 0 []
    chunks.filter (fun c => !c.isEmpty && decide ((c.length : ℚ) ≤ size * 2))

/-! ## Embedding client (`generateEmbeddings`, process-pdf/route.ts lines 146-237)

The external embedding provider is an oracle
`ℕ → List Char → ℕ → Option (List ℚ)`: given the item index, the (already
truncated) input text and the 0-based attempt number, it either returns the
vector of the response (`some v`, the case where `result.embeddings[0].values`
is present) or fails (`none`, a thrown request error or a response without
values).  Rate-limit delays and the batch grouping (which only affects
logging) are dropped. -/

/-- Retry loop for one item (lines 180-213): up to `maxRetries = 3` attempts;
when all fail, the client falls back to an explicit empty vector. -/
def perItemEmbedding (oracle : ℕ → List Char → ℕ → Option (List ℚ))
    (i : ℕ) (input : List Char) : List ℚ :=
  match oracle i input 0 with
  | some v => v
  | none =>
    match oracle i input 1 with
    | some v => v
    | none =>
      match oracle i input 2 with
      | some v => v
      | none => []

/-- Per-item pass of `generateEmbeddings` (lines 159-222): empty or
whitespace-only chunks are skipped with an empty embedding and no provider
call; other chunks are truncated to 8000 characters and embedded with the
per-item retry budget.  The first argument of the recursion is the running
item index (`embeddings.length` at call time in the source). -/
def chunkEmbeddings (oracle : ℕ → List Char → ℕ → Option (List ℚ)) :
    ℕ → List (List Char) → List (List ℚ)
  | _, [] => []
  | i, chunk :: rest =>
    (if trimChars chunk = [] then [] else perItemEmbedding oracle i (chunk.take 8000))
      :: chunkEmbeddings oracle (i + 1) rest

/-- `generateEmbeddings(chunks)` (lines 146-237): an empty input list returns
an empty result; otherwise all items are processed and the operation fails
outright only when no item produced a non-empty vector. -/
def generateEmbeddings (oracle : ℕ → List Char → ℕ → Option (List ℚ))
    (chunks : List (List Char)) : Except String (List (List ℚ)) :=
  if chunks.isEmpty then .ok []
  else
    let embeddings := chunkEmbeddings oracle 0 chunks
    if (embeddings.filter (fun e => !e.isEmpty)).isEmpty then
      .error "No valid embeddings were generated"
    else .ok embeddings

/-! ## Chunk store and single-document ingestion
(`processPDFDocument`, process-pdf/route.ts lines 242-440) -/

/-- One persisted row of the `manual_chunks` table.  The source stores the
embedding as `JSON.stringify(embedding)` and retrieval parses it back with
`JSON.parse`; since that round trip is the identity on number arrays, the
embedding is modelled as the vector itself. -/
structure StoredChunk where
  model_number : String
  content : List Char
  chunk_index : ℕ
  page_number : ℕ
  embedding : List ℚ
  processed_at : String
deriving DecidableEq

/-- Environment of one `processPDFDocument` call: the download oracle
(per-attempt success of the `axios.get` retry loop), the `pdfParse` outcome
(`.error` = parser threw; `.ok none` = no usable `text` field;
`.ok (some t)` = extracted text), the embedding-provider oracle, whether the
two database statements of the replace succeed, and the timestamp. -/
structure IngestEnv where
  download : ℕ → Bool
  parse : Except Unit (Option (List Char))
  embed : ℕ → List Char → ℕ → Option (List ℚ)
  deleteOk : Bool
  insertOk : Bool
  now : String

/-- The per-document outcome record returned by `processPDFDocument`. -/
structure IngestOutcome where
  success : Bool
  chunksProcessed : Option ℕ := none
  modelNumber : String
  message : String := ""
  error : Option String := none
deriving DecidableEq

/-- Outcome of the outer catch block (lines 431-439). -/
def failOutcome (modelNumber msg : String) : IngestOutcome :=
  { success := false, modelNumber := modelNumber,
    message := "Failed to process PDF: " ++ msg, error := some msg }

/-- Text cleaning (lines 317-320): remove the null character and the other
control characters of the source regex, then trim. -/
def isRemovedControl (c : Char) : Bool :=
  (c.toNat ≤ 8) || (c.toNat == 11) || (c.toNat == 12) ||
  (14 ≤ c.toNat && c.toNat ≤ 31) || (127 ≤ c.toNat && c.toNat ≤ 159)

/-- `cleanText` of `processPDFDocument`: filtered and trimmed raw text. -/
def cleanPdfText (raw : List Char) : List Char :=
  trimChars (raw.filter (fun c => !isRemovedControl c))

/-- Rows inserted for one run (lines 381-392):
`chunks.map((chunk, index) => {...})` reading `embeddings[index]`, with the
content capped at 50000 characters and the rough page estimate.  The running
first argument is the chunk index. -/
def buildChunkData (modelNumber now : String) :
    ℕ → List (List Char) → List (List ℚ) → List StoredChunk
  | _, [], _ => []
  | _, _ :: _, [] => []
  | index, chunk :: cs, embedding :: es =>
    { model_number := modelNumber, content := chunk.take 50000,
      chunk_index := index, page_number := index / 5 + 1,
      embedding := embedding, processed_at := now }
      :: buildChunkData modelNumber now (index + 1) cs es

/-- `processPDFDocument(modelNumber, pdfUrl)` (lines 242-440), returning the
outcome record together with the table state after the call.  Every failure
path of the source either returns a `success: false` record directly or
throws into the outer catch (modelled by `failOutcome`); the store is
modified only by the delete (when it succeeds) and the insert (when the
delete path was reached and the insert succeeds).  On a delete error the
source logs and continues with the insert. -/
def processPDFDocument (env : IngestEnv) (modelNumber pdfUrl : String)
    (store : List StoredChunk) : IngestOutcome × List StoredChunk :=
  if modelNumber = "" ∨ pdfUrl = "" then
    (failOutcome modelNumber "Model number and PDF URL are required", store)
  else if !((List.range 3).any env.download) then
    (failOutcome modelNumber "Failed to download PDF after 3 attempts", store)
  else
    match env.parse with
    | .error _ => (failOutcome modelNumber "Failed to parse PDF", store)
    | .ok none =>
      ({ success := false, modelNumber := modelNumber,
         message := "No text content found in PDF" }, store)
    | .ok (some rawText) =>
      if trimChars rawText = [] then
        ({ success := false, modelNumber := modelNumber,
           message := "No text content found in PDF" }, store)
      else
        let cleaned := cleanPdfText rawText
        if cleaned.length = 0 then
          ({ success := false, modelNumber := modelNumber,
             message := "No valid text content after cleaning" }, store)
        else
          let cleanText := if cleaned.length > 1000000 then cleaned.take 1000000 else cleaned
          let chunks₀ := splitTextIntoChunks cleanText 1000 100
          if chunks₀ = [] then
            ({ success := false, modelNumber := modelNumber,
               message := "No chunks created from text" }, store)
          else
            let chunks := if chunks₀.length > 50 then chunks₀.take 50 else chunks₀
            match generateEmbeddings env.embed chunks with
            | .error e =>
              (failOutcome modelNumber ("Failed to generate embeddings: " ++ e), store)
            | .ok embeddings =>
              if embeddings.length ≠ chunks.length then
                (failOutcome modelNumber "Embedding count mismatch", store)
              else
                let chunkData := buildChunkData modelNumber env.now 0 chunks embeddings
                let store₁ :=
                  if env.deleteOk then store.filter (fun c => !(c.model_number == modelNumber))
                  else store
                if env.insertOk then
                  ({ success := true, chunksProcessed := some chunks.length,
                     modelNumber := modelNumber,
                     message := "Successfully processed " ++ toString chunks.length ++ " chunks" },
                   store₁ ++ chunkData)
                else
                  (failOutcome modelNumber "Failed to store chunks in database", store₁)

/-! ## Batch orchestrator (`POST` with `process_all`, process-pdf/route.ts
lines 453-529).  `envs i` is the environment seen while processing the i-th
manual of the fetched batch. -/

/-- The per-manual loop (lines 479-511): process the manuals in registry
order, threading the table state; `processPDFDocument` already catches every
stage failure, so each manual contributes exactly one outcome record. -/
def processBatchGo (envs : ℕ → IngestEnv) :
    ℕ → List (String × String) → List StoredChunk →
    List IngestOutcome × List StoredChunk
  | _, [], store => ([], store)
  | i, manual :: rest, store =>
    let r := processPDFDocument (envs i) manual.1 manual.2 store
    let next := processBatchGo envs (i + 1) rest r.2
    (r.1 :: next.1, next.2)

/-- Aggregate batch summary (lines 513-529). -/
structure BatchSummary where
  results : List IngestOutcome
  successful : ℕ
  failed : ℕ
  total : ℕ
deriving DecidableEq

/-- Batch processing over the fetched manuals (the source fetches the
registry with `.limit(166)`; `manuals` is that fetched list): the loop plus
the success and failure counts of the summary. -/
def processBatch (envs : ℕ → IngestEnv) (manuals : List (String × String))
    (store : List StoredChunk) : BatchSummary × List StoredChunk :=
  let g := processBatchGo envs 0 manuals store
  ({ results := g.1,
     successful := (g.1.filter (fun r => r.success)).length,
     failed := (g.1.filter (fun r => !r.success)).length,
     total := g.1.length }, g.2)

/-- Default outcome used with `List.getD` in theorem statements. -/
def blankOutcome : IngestOutcome :=
  { success := false, modelNumber := "" }

/-! ## Retrieval engine (ask/route.ts lines 27-139) -/

/-- The exact content of the cosine-similarity computation (lines 42-50):
the accumulated dot product and the two squared norms.  The source returns
the float `dotProduct / (Math.sqrt(normA) * Math.sqrt(normB))`; we keep the
triple and interpret the score `dot / (sqrt normA * sqrt normB)` through the
exact comparator `simScoreLE` below. -/
structure Sim where
  dotProduct : ℚ
  normA : ℚ
  normB : ℚ
deriving DecidableEq

/-- `cosineSimilarity(vecA, vecB)` (lines 37-53): a hard error when the
dimensionalities differ, otherwise the fold over the components. -/
def cosineSimilarity (vecA vecB : List ℚ) : Except String Sim :=
  if vecA.length ≠ vecB.length then .error "Vectors must have the same length"
  else
    .ok { dotProduct := ((vecA.zip vecB).map (fun p => p.1 * p.2)).sum,
          normA := (vecA.map (fun a => a * a)).sum,
          normB := (vecB.map (fun b => b * b)).sum }

/-- Sort key of a similarity value: the comparator of the source reads
`(b.similarity || 0) - (a.similarity || 0)`; when a norm is zero the float
score is NaN (the dot product is then also zero), which `|| 0` turns into 0 —
represented as the pair (0, 1).  Otherwise the key (dot, normA * normB)
stands for the real score `dot / sqrt (normA * normB)`. -/
def simKey (s : Sim) : ℚ × ℚ :=
  if s.normA * s.normB = 0 then (0, 1) else (s.dotProduct, s.normA * s.normB)

/-- Exact decidable comparison of two similarity scores
`dx / sqrt Dx ≤ dy / sqrt Dy` (positive denominators), by sign analysis and
cross-multiplied squares. -/
def simScoreLE (x y : Sim) : Bool :=
  let kx := simKey x
  let ky := simKey y
  if kx.1 ≤ 0 then
    (if 0 ≤ ky.1 then true else decide (ky.1 * ky.1 * kx.2 ≤ kx.1 * kx.1 * ky.2))
  else
    (if ky.1 ≤ 0 then false else decide (kx.1 * kx.1 * ky.2 ≤ ky.1 * ky.1 * kx.2))

/-- The `RetrievedChunk` interface (lines 27-32) with the similarity attached
by `retrieveRelevantChunks`. -/
structure RetrievedChunk where
  model_number : String
  content : List Char
  chunk_index : ℕ
  similarity : Sim
deriving DecidableEq

/-- `retrieveRelevantChunks(queryEmbedding, modelNumber?, limit = 5)`
(lines 86-139).  The `supabase` read becomes a pure scan of the store; the JS
truthiness test `if (modelNumber)` makes an empty-string filter behave like
no filter.  Each candidate is scored inside a per-candidate try/catch: a
failing `cosineSimilarity` (or embedding parse) maps the candidate to `null`,
which the subsequent `.filter` drops; the survivors are sorted by descending
similarity and cut to `limit`. -/
def retrieveRelevantChunks (queryEmbedding : List ℚ) (modelNumber : Option String)
    (limit : ℕ) (store : List StoredChunk) : Except String (List RetrievedChunk) :=
  let data :=
    match modelNumber with
    | some m => if m = "" then store else store.filter (fun c => c.model_number == m)
    | none => store
  if data.isEmpty then .ok []
  else
    let chunksWithSimilarity := data.filterMap (fun chunk =>
      match cosineSimilarity queryEmbedding chunk.embedding with
      | .ok similarity =>
        some { model_number := chunk.model_number, content := chunk.content,
               chunk_index := chunk.chunk_index, similarity := similarity }
      | .error _ => none)
    .ok ((insertionSort (fun a b => simScoreLE b.similarity a.similarity)
      chunksWithSimilarity).take limit)

/-! ## Ask endpoint (`POST`, ask/route.ts lines 201-264) -/

/-- JSON values relevant to the `question` field of the request body. -/
inductive JVal where
  | jnull
  | jbool (b : Bool)
  | jnum (q : ℚ)
  | jstr (s : String)
deriving DecidableEq

/-- Parsed request body of the Ask operation; `none` stands for an absent or
null field. -/
structure AskRequest where
  question : Option JVal
  model_number : Option String
deriving DecidableEq

/-- One entry of the `sources` array of a successful response (lines 241-245):
document id, similarity, and the 200-character preview. -/
structure AskSource where
  model_number : String
  similarity : Sim
  preview : List Char
deriving DecidableEq

/-- An HTTP JSON response of the Ask endpoint; `none` in an `Option` field
means the JSON object does not contain that field at all, while
`model_number = some none` means the field is present with value `null`. -/
structure AskResponse where
  status : ℕ
  answer : Option String := none
  sources : Option (List AskSource) := none
  question : Option String := none
  model_number : Option (Option String) := none
  error : Option String := none
deriving DecidableEq

/-- The external calls the Ask operation can make, in order. -/
inductive AskCall where
  | embedCall
  | retrievalCall
  | generationCall
deriving DecidableEq

/-- Environment of one Ask call: the query-embedding provider result
(`none` = the call threw or returned no values) and the generation provider
result (`none` = no generated text). -/
structure AskEnv where
  queryEmbed : Option (List ℚ)
  generate : Option String

/-- The validation of line 205:
`!question || typeof question !== 'string' || question.trim().length === 0`.
`questionAccepted` is the negation: the field holds a string whose trim is
non-empty (the JS falsiness of `""` is subsumed by the trim test). -/
def questionAccepted : Option JVal → Bool
  | some (.jstr s) => !(trimChars s.toList == [])
  | _ => false

/-- The question string once validation passed. -/
def questionString : Option JVal → String
  | some (.jstr s) => s
  | _ => ""

/-- `model_number || null` (line 251): the resolved document filter of the
success response, with JS truthiness collapsing `""` to null. -/
def resolvedFilter : Option String → Option String
  | some m => if m = "" then none else some m
  | none => none

/-- The canned no-information answer (lines 227-229), selected by the JS
truthiness of `model_number`. -/
def noInfoAnswer : Option String → String
  | some m =>
    if m = "" then
      "I do not have relevant manual information to answer your question. Please make sure the manuals have been processed."
    else
      "I do not have manual information available for model " ++ m ++ " to answer your question."
  | none =>
    "I do not have relevant manual information to answer your question. Please make sure the manuals have been processed."

/-- `POST` of ask/route.ts (lines 201-264), returning the response together
with the list of external operations performed.  Thrown errors from the
embedding, retrieval and generation steps land in the catch block of
lines 254-263 (status 500). -/
def askPOST (env : AskEnv) (req : AskRequest) (store : List StoredChunk) :
    AskResponse × List AskCall :=
  if !questionAccepted req.question then
    ({ status := 400, error := some "Question is required and must be a non-empty string" }, [])
  else
    match env.queryEmbed with
    | none => ({ status := 500, error := some "Failed to process question" }, [.embedCall])
    | some queryEmbedding =>
      match retrieveRelevantChunks queryEmbedding req.model_number 5 store with
      | .error _ =>
        ({ status := 500, error := some "Failed to process question" },
         [.embedCall, .retrievalCall])
      | .ok relevantChunks =>
        if relevantChunks.isEmpty then
          ({ status := 200,
             answer := some (noInfoAnswer req.model_number),
             sources := some [],
             question := some (questionString req.question) },
           [.embedCall, .retrievalCall])
        else
          match env.generate with
          | none =>
            ({ status := 500, error := some "Failed to process question" },
             [.embedCall, .retrievalCall, .generationCall])
          | some answer =>
            ({ status := 200,
               answer := some answer,
               sources := some (relevantChunks.map (fun chunk =>
                 { model_number := chunk.model_number, similarity := chunk.similarity,
                   preview := chunk.content.take 200 ++ "...".toList })),
               question := some (questionString req.question),
               model_number := some (resolvedFilter req.model_number) },
             [.embedCall, .retrievalCall, .generationCall])

/-! ## Concrete fixtures used by witnesses and counterexamples -/

/-- A stored chunk whose embedding dimensionality (2) differs from the
3-dimensional query embedding used alongside it. -/
def chunkMismatched : StoredChunk :=
  { model_number := "BAD", content := "bad".toList, chunk_index := 0,
    page_number := 1, embedding := [1, 2], processed_at := "t" }

/-- A stored chunk whose embedding matches the 3-dimensional query embedding. -/
def chunkMatching : StoredChunk :=
  { model_number := "GOOD", content := "good text".toList, chunk_index := 1,
    page_number := 1, embedding := [1, 0, 0], processed_at := "t" }

/-- Ingestion environment in which every external operation succeeds. -/
def ingestEnvOk : IngestEnv :=
  { download := fun _ => true, parse := .ok (some "abcdefghij".toList),
    embed := fun _ _ _ => some [1], deleteOk := true, insertOk := true, now := "T0" }

/-- Same environment, except that the delete statement of the replace fails. -/
def ingestEnvDeleteFail : IngestEnv := { ingestEnvOk with deleteOk := false }

/-- Same environment, except that every download attempt fails. -/
def ingestEnvDownloadFail : IngestEnv := { ingestEnvOk with download := fun _ => false }

/-- A chunk left in the store by an earlier ingestion run for document M1. -/
def oldChunkM1 : StoredChunk :=
  { model_number := "M1", content := "old".toList, chunk_index := 0,
    page_number := 1, embedding := [1], processed_at := "Told" }

/-- A three-document registry batch. -/
def manualsThree : List (String × String) := [("M1", "u1"), ("M2", "u2"), ("M3", "u3")]

/-- Batch environments in which document 2 (index 1) always fails to download. -/
def envsThree : ℕ → IngestEnv := fun i => if i == 1 then ingestEnvDownloadFail else ingestEnvOk

/-! ## Claim C7 -/

/-- Claim C7: every chunk emitted by `splitTextIntoChunks` has length at most
two times the target chunk size actually used by the run (the requested size
clamped into [100, 10000], which equals the requested size for every
in-range request, in particular the default 1000): no chunk strictly larger
than twice the target size survives the post-filter. -/
theorem chunk_size_bound (text : List Char) (maxChunkSize overlap : ℚ) (c : List Char)
    (hc : c ∈ splitTextIntoChunks text maxChunkSize overlap) :
    (c.length : ℚ) ≤ 2 * effectiveChunkSize maxChunkSize := by
  unfold splitTextIntoChunks at hc
  split at hc
  · simp at hc
  · have hp := List.of_mem_filter hc
    simp only [Bool.and_eq_true, decide_eq_true_eq] at hp
    linarith [hp.2]

/-- Witness for C7 on a concrete input. -/
theorem chunk_size_bound_witness :
    "hello world".toList ∈ splitTextIntoChunks "hello world".toList 1000 100 ∧
    (("hello world".toList.length : ℚ) ≤ 2 * effectiveChunkSize 1000) :=
  ⟨by decide, chunk_size_bound "hello world".toList 1000 100 "hello world".toList (by decide)⟩

/-! ## Claim C8 -/

/-- Bounded growth of the chunking loop: each iteration consumes one unit of
fuel and appends at most one chunk. -/
theorem chunkLoop_length_le (text : List Char) (size ov : ℚ) :
    ∀ (fuel : ℕ) (start : ℚ) (acc : List (List Char)),
      (chunkLoop text size ov fuel start acc).length ≤ acc.length + fuel := by
  intro fuel
  induction fuel with
  | zero => intro start acc; simp [chunkLoop]
  | succ fuel ih =>
    intro start acc
    simp only [chunkLoop]
    repeat' split
    all_goals
      first
      | omega
      | exact le_trans (ih _ _)
          (by simp only [List.length_append, List.length_singleton]; omega)
      | exact le_trans (ih _ _) (by omega)

/-- Claim C8: the chunker terminates on every input and parameter choice.
First conjunct: from any non-negative start offset, the start-offset update
of the loop strictly increases the offset (forcing an advance of at least
`max 1 (size - overlap)` when `endIndex - overlap` makes no progress).
Second conjunct: the loop consumes one unit of the iteration budget per
iteration, so it stops after at most `fuel` iterations.  Third conjunct: the
whole function returns a list bounded by the iteration safety ceiling. -/
theorem chunker_termination :
    (∀ startIndex endIndex maxChunkSize overlap : ℚ, 0 ≤ startIndex →
      startIndex < nextStartIndex startIndex endIndex maxChunkSize overlap) ∧
    (∀ (text : List Char) (size ov : ℚ) (fuel : ℕ) (start : ℚ) (acc : List (List Char)),
      (chunkLoop text size ov fuel start acc).length ≤ acc.length + fuel) ∧
    (∀ (text : List Char) (maxChunkSize overlap : ℚ),
      (splitTextIntoChunks text maxChunkSize overlap).length ≤
        chunkIterationCeiling text maxChunkSize overlap) := by
  refine ⟨?_, chunkLoop_length_le, ?_⟩
  · intro s e size ov hs
    simp only [nextStartIndex]
    split_ifs with h1 h2 h2
    · linarith [le_max_left (1 : ℚ) (size - ov)]
    · linarith [le_max_left (1 : ℚ) (size - ov)]
    · linarith
    · linarith
  · intro text size ov
    unfold splitTextIntoChunks
    split
    · simp
    · refine le_trans (List.length_filter_le _ _) ?_
      have h := chunkLoop_length_le text (effectiveChunkSize size)
        (effectiveOverlap size ov) (chunkIterationCeiling text size ov) 0 []
      simpa using h

/-- Witness for C8 at concrete values. -/
theorem chunker_termination_witness :
    ((0 : ℚ) ≤ 0 ∧ (0 : ℚ) < nextStartIndex 0 10 1000 100) ∧
    (splitTextIntoChunks "hello world".toList 1000 100).length ≤
      chunkIterationCeiling "hello world".toList 1000 100 :=
  ⟨⟨le_refl 0, chunker_termination.1 0 10 1000 100 (le_refl 0)⟩,
   chunker_termination.2.2 "hello world".toList 1000 100⟩

/-! ## Claim C1 -/

/-- Counterexample to claim C1 as stated: the store holds a candidate whose
embedding dimensionality (2) differs from the query embedding
dimensionality (3), yet retrieval does not fail — it returns an ok result
computed from the remaining candidate. -/
theorem retrieval_mismatch_cex :
    chunkMismatched.embedding.length ≠ ([1, 0, 0] : List ℚ).length ∧
    retrieveRelevantChunks [1, 0, 0] none 5 [chunkMismatched, chunkMatching] =
      Except.ok [{ model_number := "GOOD", content := "good text".toList, chunk_index := 1,
                   similarity := { dotProduct := 1, normA := 1, normB := 1 } }] :=
  ⟨by decide, by rfl⟩

/-- Claim C1 amended: `cosineSimilarity` itself fails hard on mismatched
dimensionality, but `retrieveRelevantChunks` catches the error per candidate
inside the mapping try/catch, drops that candidate, and always returns an ok
result computed from the remaining candidates — a dimensionality mismatch is
never propagated to the caller. -/
theorem retrieval_mismatch_skipped :
    (∀ vecA vecB : List ℚ, vecA.length ≠ vecB.length →
      cosineSimilarity vecA vecB = Except.error "Vectors must have the same length") ∧
    (∀ (queryEmbedding : List ℚ) (modelNumber : Option String) (limit : ℕ)
      (store : List StoredChunk),
      ∃ rs, retrieveRelevantChunks queryEmbedding modelNumber limit store = Except.ok rs) := by
  constructor
  · intro a b h
    simp [cosineSimilarity, h]
  · intro qe mn lim store
    unfold retrieveRelevantChunks
    dsimp only
    split
    · exact ⟨[], rfl⟩
    · exact ⟨_, rfl⟩

/-- Witness for the amended C1 at concrete values. -/
theorem retrieval_mismatch_skipped_witness :
    ([1, 2] : List ℚ).length ≠ ([1, 0, 0] : List ℚ).length ∧
    cosineSimilarity [1, 2] [1, 0, 0] = Except.error "Vectors must have the same length" ∧
    ∃ rs, retrieveRelevantChunks [1, 0, 0] none 5 [chunkMismatched, chunkMatching] =
      Except.ok rs :=
  ⟨by decide, retrieval_mismatch_skipped.1 [1, 2] [1, 0, 0] (by decide),
   retrieval_mismatch_skipped.2 [1, 0, 0] none 5 [chunkMismatched, chunkMatching]⟩

/-! ## Claims C6 and C9: membership structure of retrieval results -/

/-- Length agreement extracted from a successful `cosineSimilarity` call. -/
theorem cosineSimilarity_ok_length {a b : List ℚ} {s : Sim}
    (h : cosineSimilarity a b = Except.ok s) : a.length = b.length := by
  unfold cosineSimilarity at h
  split at h
  · cases h
  · next hne => exact not_ne_iff.mp hne

/-- Every retrieval result is built from a candidate row of the scanned data
set whose `cosineSimilarity` call succeeded, and copies that row's fields. -/
theorem retrieveRelevantChunks_mem
    {queryEmbedding : List ℚ} {modelNumber : Option String} {limit : ℕ}
    {store : List StoredChunk} {rs : List RetrievedChunk}
    (hok : retrieveRelevantChunks queryEmbedding modelNumber limit store = Except.ok rs)
    {r : RetrievedChunk} (hr : r ∈ rs) :
    ∃ c, c ∈ (match modelNumber with
      | some m => if m = "" then store else store.filter (fun c => c.model_number == m)
      | none => store) ∧
      cosineSimilarity queryEmbedding c.embedding = Except.ok r.similarity ∧
      c.model_number = r.model_number ∧ c.chunk_index = r.chunk_index ∧
      c.content = r.content := by
  unfold retrieveRelevantChunks at hok
  dsimp only at hok
  split at hok
  · cases hok
    simp at hr
  · cases hok
    have hr' := List.mem_of_mem_take hr
    rw [mem_insertionSort] at hr'
    obtain ⟨c, hc, hfc⟩ := List.mem_filterMap.mp hr'
    refine ⟨c, hc, ?_⟩
    rcases hcos : cosineSimilarity queryEmbedding c.embedding with e | sim
    · rw [hcos] at hfc
      cases hfc
    · rw [hcos] at hfc
      cases hfc
      exact ⟨rfl, rfl, rfl, rfl⟩

/-- Claim C6: no retrieval result references a chunk whose stored embedding
is empty — for every query whose embedding is non-empty (the provider
contract fixes the query dimensionality), every returned result comes from a
store row with a non-empty embedding, because an empty embedding has
dimensionality 0, which mismatches the query and is dropped by the
per-candidate catch. -/
theorem retrieval_excludes_empty_embeddings
    (queryEmbedding : List ℚ) (hq : queryEmbedding ≠ [])
    (modelNumber : Option String) (limit : ℕ) (store : List StoredChunk)
    (rs : List RetrievedChunk)
    (hok : retrieveRelevantChunks queryEmbedding modelNumber limit store = Except.ok rs)
    (r : RetrievedChunk) (hr : r ∈ rs) :
    ∃ c ∈ store, c.model_number = r.model_number ∧ c.chunk_index = r.chunk_index ∧
      c.content = r.content ∧ c.embedding ≠ [] := by
  obtain ⟨c, hc, hcos, hmn, hci, hct⟩ := retrieveRelevantChunks_mem hok hr
  have hcs : c ∈ store := by
    rcases modelNumber with _ | m
    · exact hc
    · dsimp only at hc
      split at hc
      · exact hc
      · exact (List.mem_filter.mp hc).1
  have hlen := cosineSimilarity_ok_length hcos
  refine ⟨c, hcs, hmn, hci, hct, ?_⟩
  intro hemb
  rw [hemb] at hlen
  simp at hlen
  exact hq hlen

/-- Store fixture for the C6 witness: one failure-marker chunk with an empty
embedding next to one valid chunk. -/
def storeWithEmptyMarker : List StoredChunk :=
  [{ model_number := "E", content := "e".toList, chunk_index := 0, page_number := 1,
     embedding := [], processed_at := "t" },
   { model_number := "OK", content := "ok".toList, chunk_index := 1, page_number := 1,
     embedding := [1, 0], processed_at := "t" }]

/-- The single retrieval result over `storeWithEmptyMarker`. -/
def okMarkerResult : RetrievedChunk :=
  { model_number := "OK", content := "ok".toList, chunk_index := 1,
    similarity := { dotProduct := 1, normA := 1, normB := 1 } }

/-- Witness for C6 at concrete values. -/
theorem retrieval_excludes_empty_embeddings_witness :
    (([1, 0] : List ℚ) ≠ []) ∧
    ∃ c ∈ storeWithEmptyMarker, c.model_number = "OK" ∧ c.chunk_index = 1 ∧
      c.content = "ok".toList ∧ c.embedding ≠ [] :=
  ⟨by decide,
   retrieval_excludes_empty_embeddings [1, 0] (by decide) none 5 storeWithEmptyMarker
     [okMarkerResult] (by rfl) okMarkerResult (by decide)⟩

/-- Claim C9: with a (non-empty, hence JS-truthy) document filter, every
retrieval result belongs to the filtered document identifier, for any corpus. -/
theorem retrieval_filter_respected
    (queryEmbedding : List ℚ) (m : String) (hm : m ≠ "")
    (limit : ℕ) (store : List StoredChunk) (rs : List RetrievedChunk)
    (hok : retrieveRelevantChunks queryEmbedding (some m) limit store = Except.ok rs)
    (r : RetrievedChunk) (hr : r ∈ rs) :
    r.model_number = m := by
  obtain ⟨c, hc, _, hmn, _, _⟩ := retrieveRelevantChunks_mem hok hr
  dsimp only at hc
  rw [if_neg hm] at hc
  have := (List.mem_filter.mp hc).2
  rw [beq_iff_eq] at this
  rw [← hmn, this]

/-- Store fixture for the C9 witness: the filtered document next to an
unrelated document. -/
def storeTwoDocs : List StoredChunk :=
  [{ model_number := "OTHER", content := "other".toList, chunk_index := 0, page_number := 1,
     embedding := [1, 0], processed_at := "t" },
   { model_number := "M7", content := "target".toList, chunk_index := 0, page_number := 1,
     embedding := [0, 1], processed_at := "t" }]

/-- The single retrieval result for filter M7 over `storeTwoDocs`. -/
def m7Result : RetrievedChunk :=
  { model_number := "M7", content := "target".toList, chunk_index := 0,
    similarity := { dotProduct := 1, normA := 2, normB := 1 } }

/-- Witness for C9 at concrete values. -/
theorem retrieval_filter_respected_witness :
    ("M7" : String) ≠ "" ∧ m7Result.model_number = "M7" :=
  ⟨by decide,
   retrieval_filter_respected [1, 1] "M7" (by decide) 5 storeTwoDocs [m7Result]
     (by rfl) m7Result (by decide)⟩

/-! ## Claim C10 -/

/-- Claim C10: a request whose question field is absent, not a string, or a
whitespace-only string is rejected with status 400 before any embedding,
retrieval or generation call is made (the effect list is empty, and the
store is never touched). -/
theorem ask_rejects_bad_question (env : AskEnv) (req : AskRequest) (store : List StoredChunk)
    (h : req.question = none ∨ (∀ s, req.question ≠ some (JVal.jstr s)) ∨
         (∃ s, req.question = some (JVal.jstr s) ∧ trimChars s.toList = [])) :
    (askPOST env req store).1.status = 400 ∧ (askPOST env req store).2 = [] ∧
    (askPOST env req store).1.error = some "Question is required and must be a non-empty string" := by
  have hacc : questionAccepted req.question = false := by
    rcases h with h | h | ⟨s, hs, ht⟩
    · rw [h]; rfl
    · rcases hq : req.question with _ | v
      · rfl
      · cases v with
        | jstr s => exact absurd hq (h s)
        | jnull => rfl
        | jbool b => rfl
        | jnum q => rfl
    · rw [hs]
      rw [show s.toList = s.data from rfl] at ht
      simp [questionAccepted, ht]
  simp [askPOST, hacc]

/-- Request fixture with a whitespace-only question. -/
def blankQuestionReq : AskRequest := { question := some (.jstr "   "), model_number := none }

/-- Environment fixture for the C10 witness. -/
def askEnvIdle : AskEnv := { queryEmbed := none, generate := none }

/-- Witness for C10 at concrete values. -/
theorem ask_rejects_bad_question_witness :
    (askPOST askEnvIdle blankQuestionReq []).1.status = 400 ∧
    (askPOST askEnvIdle blankQuestionReq []).2 = [] ∧
    (askPOST askEnvIdle blankQuestionReq []).1.error =
      some "Question is required and must be a non-empty string" :=
  ask_rejects_bad_question askEnvIdle blankQuestionReq []
    (Or.inr (Or.inr ⟨"   ", rfl, by rfl⟩))

/-! ## Claim C5 -/

/-- Environment fixture for the Ask endpoint in which both providers succeed. -/
def askEnvLive : AskEnv := { queryEmbed := some [1], generate := some "generated answer" }

/-- Request fixture with a valid question and no document filter. -/
def plainAskReq : AskRequest := { question := some (.jstr "hi"), model_number := none }

/-- Counterexample to claim C5 as stated: with an empty corpus the Ask
operation returns a non-error (status 200) response whose sources list is
empty — and that response does not contain the resolved document filter
field at all (`model_number = none` means the field is absent from the JSON
object, while the claim requires it to be present with value null). -/
theorem ask_filter_field_cex :
    (askPOST askEnvLive plainAskReq []).1.status = 200 ∧
    (askPOST askEnvLive plainAskReq []).1.error = none ∧
    (askPOST askEnvLive plainAskReq []).1.sources = some [] ∧
    (askPOST askEnvLive plainAskReq []).1.model_number = none := by
  refine ⟨rfl, rfl, rfl, rfl⟩

/-- Claim C5 amended: the success response produced after answer generation
does contain the resolved document filter field (the request filter or
null); but the no-relevant-chunks success response (status 200, canned
answer, empty sources — not an error) omits the field entirely. -/
theorem ask_filter_field (env : AskEnv) (req : AskRequest) (store : List StoredChunk)
    (hq : questionAccepted req.question = true)
    (qe : List ℚ) (hqe : env.queryEmbed = some qe)
    (rs : List RetrievedChunk)
    (hrs : retrieveRelevantChunks qe req.model_number 5 store = Except.ok rs) :
    (rs ≠ [] → ∀ ans, env.generate = some ans →
      (askPOST env req store).1.model_number = some (resolvedFilter req.model_number) ∧
      (askPOST env req store).1.status = 200 ∧
      (askPOST env req store).1.error = none) ∧
    (rs = [] →
      (askPOST env req store).1 =
        { status := 200, answer := some (noInfoAnswer req.model_number),
          sources := some [], question := some (questionString req.question) }) := by
  constructor
  · intro hne ans hans
    rcases rs with _ | ⟨r, rs'⟩
    · exact absurd rfl hne
    · simp [askPOST, hq, hqe, hrs, hans]
  · rintro rfl
    simp [askPOST, hq, hqe, hrs]

/-- Store fixture for the C5 witness. -/
def oneChunkStore : List StoredChunk :=
  [{ model_number := "M1", content := "abc".toList, chunk_index := 0, page_number := 1,
     embedding := [1], processed_at := "t" }]

/-- The single retrieval result over `oneChunkStore` for query embedding 1. -/
def oneChunkResult : RetrievedChunk :=
  { model_number := "M1", content := "abc".toList, chunk_index := 0,
    similarity := { dotProduct := 1, normA := 1, normB := 1 } }

/-- Witness for the amended C5 at concrete values. -/
theorem ask_filter_field_witness :
    questionAccepted plainAskReq.question = true ∧
    (askPOST askEnvLive plainAskReq oneChunkStore).1.model_number =
      some (resolvedFilter plainAskReq.model_number) ∧
    (askPOST askEnvLive plainAskReq oneChunkStore).1.status = 200 :=
  ⟨by decide,
   ((ask_filter_field askEnvLive plainAskReq oneChunkStore (by decide) [1] rfl
      [oneChunkResult] (by rfl)).1 (by decide) "generated answer" rfl).1,
   ((ask_filter_field askEnvLive plainAskReq oneChunkStore (by decide) [1] rfl
      [oneChunkResult] (by rfl)).1 (by decide) "generated answer" rfl).2.1⟩

/-! ## Claim C4 -/

/-- Claim C4: for a (non-empty, as guaranteed at the only call site by the
`chunks.length === 0` guard of `processPDFDocument`) chunk list, embedding
generation fails outright with the EmbeddingError
"No valid embeddings were generated" if and only if zero items produced a
non-empty vector; otherwise it returns the full per-item list — in which an
item whose 3-attempt retry budget was exhausted appears as an explicit empty
vector instead of aborting the operation (third conjunct). -/
theorem generateEmbeddings_spec (oracle : ℕ → List Char → ℕ → Option (List ℚ))
    (chunks : List (List Char)) (h : chunks ≠ []) :
    ((∃ e, generateEmbeddings oracle chunks = Except.error e) ↔
      ∀ v ∈ chunkEmbeddings oracle 0 chunks, v = []) ∧
    ((¬ ∀ v ∈ chunkEmbeddings oracle 0 chunks, v = []) →
      generateEmbeddings oracle chunks = Except.ok (chunkEmbeddings oracle 0 chunks)) ∧
    (∀ (i : ℕ) (input : List Char), (∀ a < 3, oracle i input a = none) →
      perItemEmbedding oracle i input = []) := by
  obtain ⟨c, cs, rfl⟩ : ∃ c cs, chunks = c :: cs := by
    rcases chunks with _ | ⟨c, cs⟩
    · exact absurd rfl h
    · exact ⟨c, cs, rfl⟩
  have hfilter : (((chunkEmbeddings oracle 0 (c :: cs)).filter
      (fun e => !e.isEmpty)).isEmpty = true) ↔
      ∀ v ∈ chunkEmbeddings oracle 0 (c :: cs), v = [] := by
    rw [List.isEmpty_iff, List.filter_eq_nil_iff]
    constructor
    · intro hall v hv
      simpa using hall v hv
    · intro hall v hv
      simp [hall v hv]
  have hE : generateEmbeddings oracle (c :: cs) =
      if ((chunkEmbeddings oracle 0 (c :: cs)).filter (fun e => !e.isEmpty)).isEmpty = true
      then Except.error "No valid embeddings were generated"
      else Except.ok (chunkEmbeddings oracle 0 (c :: cs)) := rfl
  refine ⟨?_, ?_, ?_⟩
  · rw [hE]
    by_cases hb : ((chunkEmbeddings oracle 0 (c :: cs)).filter
        (fun e => !e.isEmpty)).isEmpty = true
    · rw [if_pos hb]
      constructor
      · intro _
        exact hfilter.mp hb
      · intro _
        exact ⟨_, rfl⟩
    · rw [if_neg hb]
      constructor
      · rintro ⟨e, he⟩
        cases he
      · intro hall
        exact absurd (hfilter.mpr hall) hb
  · intro hnall
    rw [hE, if_neg (fun hb => hnall (hfilter.mp hb))]
  · intro i input ha
    have h0 := ha 0 (by norm_num)
    have h1 := ha 1 (by norm_num)
    have h2 := ha 2 (by norm_num)
    simp [perItemEmbedding, h0, h1, h2]

/-- Embedding oracle for the C4 witness: item 0 succeeds immediately, every
attempt for every other item fails. -/
def embedOracleHalf : ℕ → List Char → ℕ → Option (List ℚ) :=
  fun i _ _ => if i == 0 then some [1] else none

/-- Chunk list for the C4 witness. -/
def twoChunks : List (List Char) := ["a".toList, "b".toList]

/-- Witness for C4 at concrete values: with one succeeding item and one item
whose retry budget is exhausted, the operation does not abort and the
exhausted item appears as an explicit empty vector. -/
theorem generateEmbeddings_spec_witness :
    twoChunks ≠ [] ∧
    generateEmbeddings embedOracleHalf twoChunks =
      Except.ok (chunkEmbeddings embedOracleHalf 0 twoChunks) ∧
    chunkEmbeddings embedOracleHalf 0 twoChunks = [[1], []] ∧
    perItemEmbedding embedOracleHalf 1 ("b".toList.take 8000) = [] :=
  ⟨by decide,
   (generateEmbeddings_spec embedOracleHalf twoChunks (by decide)).2.1 (by decide),
   by rfl,
   (generateEmbeddings_spec embedOracleHalf twoChunks (by decide)).2.2 1 ("b".toList.take 8000)
     (fun a _ => rfl)⟩

/-! ## Claim C2 -/

/-- Every row built for one run carries the run's document identifier. -/
theorem buildChunkData_model (m now : String) :
    ∀ (i : ℕ) (cs : List (List Char)) (es : List (List ℚ)) (c : StoredChunk),
      c ∈ buildChunkData m now i cs es → c.model_number = m := by
  intro i cs
  induction cs generalizing i with
  | nil =>
    intro es c hc
    cases es <;> simp [buildChunkData] at hc
  | cons ch cs ih =>
    intro es c hc
    cases es with
    | nil => simp [buildChunkData] at hc
    | cons e es =>
      simp only [buildChunkData, List.mem_cons] at hc
      rcases hc with rfl | hc
      · rfl
      · exact ih _ _ _ hc

/-- With one embedding per chunk, one row is built per chunk. -/
theorem buildChunkData_length (m now : String) :
    ∀ (i : ℕ) (cs : List (List Char)) (es : List (List ℚ)), es.length = cs.length →
      (buildChunkData m now i cs es).length = cs.length := by
  intro i cs
  induction cs generalizing i with
  | nil =>
    intro es he
    cases es with
    | nil => rfl
    | cons e es => cases he
  | cons ch cs ih =>
    intro es he
    cases es with
    | nil => cases he
    | cons e es =>
      simp only [buildChunkData, List.length_cons]
      rw [ih (i + 1) es (by simpa using he)]

/-- Counterexample to claim C2 as stated: when the delete statement of the
replace fails, the source logs and continues with the insert, so a completed
ingestion run (reported successful, 1 chunk processed) leaves the old chunk
of the earlier run next to the new one — a mix, and 2 stored chunks for the
document instead of exactly the 1 produced by the run. -/
theorem replace_semantics_cex :
    (processPDFDocument ingestEnvDeleteFail "M1" "url" [oldChunkM1]).1.success = true ∧
    (processPDFDocument ingestEnvDeleteFail "M1" "url" [oldChunkM1]).1.chunksProcessed = some 1 ∧
    oldChunkM1 ∈ (processPDFDocument ingestEnvDeleteFail "M1" "url" [oldChunkM1]).2 ∧
    ((processPDFDocument ingestEnvDeleteFail "M1" "url" [oldChunkM1]).2.filter
      (fun c => c.model_number == "M1")).length = 2 := by
  refine ⟨by decide, by decide, by decide, by decide⟩

set_option maxHeartbeats 1000000 in
/-- Claim C2 amended: provided the delete statement of the replace succeeds,
a completed (successful) ingestion run leaves, for the ingested document
identifier, exactly the chunk rows built by that run — the old rows for the
identifier are gone, every new row carries the identifier, and the reported
chunk count equals the number of new rows.  (When the delete fails the
source deliberately continues with the insert, which is the
`replace_semantics_cex` counterexample.) -/
theorem processPDFDocument_replace (env : IngestEnv) (m url : String)
    (store : List StoredChunk) (hdel : env.deleteOk = true)
    (hs : (processPDFDocument env m url store).1.success = true) :
    ∃ cd, (processPDFDocument env m url store).2 =
        store.filter (fun c => !(c.model_number == m)) ++ cd ∧
      (∀ c ∈ cd, c.model_number = m) ∧
      (processPDFDocument env m url store).1.chunksProcessed = some cd.length := by
  rcases hPe : processPDFDocument env m url store with ⟨o, st⟩
  rw [hPe] at hs
  simp only [processPDFDocument] at hPe
  repeat' split at hPe
  all_goals try (cases hPe; revert hs; simp [failOutcome]; done)
  all_goals
    cases hPe
    refine ⟨_, rfl, buildChunkData_model m env.now 0 _ _, ?_⟩
    simp only
    rw [buildChunkData_length m env.now 0 _ _ (by omega)]

/-- Witness for the amended C2 at concrete values. -/
theorem processPDFDocument_replace_witness :
    ingestEnvOk.deleteOk = true ∧
    (processPDFDocument ingestEnvOk "M1" "url" [oldChunkM1]).1.success = true ∧
    ∃ cd, (processPDFDocument ingestEnvOk "M1" "url" [oldChunkM1]).2 =
        ([oldChunkM1].filter (fun c => !(c.model_number == "M1"))) ++ cd ∧
      (∀ c ∈ cd, c.model_number = "M1") ∧
      (processPDFDocument ingestEnvOk "M1" "url" [oldChunkM1]).1.chunksProcessed =
        some cd.length :=
  ⟨rfl, by decide,
   processPDFDocument_replace ingestEnvOk "M1" "url" [oldChunkM1] rfl (by decide)⟩

/-! ## Claim C3 -/

/-- One outcome record per manual in the batch loop. -/
theorem processBatchGo_length (envs : ℕ → IngestEnv) :
    ∀ (manuals : List (String × String)) (j : ℕ) (store : List StoredChunk),
      (processBatchGo envs j manuals store).1.length = manuals.length := by
  intro manuals
  induction manuals with
  | nil => intro j store; rfl
  | cons manual rest ih =>
    intro j store
    simp only [processBatchGo, List.length_cons]
    rw [ih]

/-- Filtering a list by a boolean predicate and by its negation partitions
its length. -/
theorem length_filter_partition (l : List IngestOutcome) :
    (l.filter (fun r => r.success)).length + (l.filter (fun r => !r.success)).length
      = l.length := by
  induction l with
  | nil => rfl
  | cons r rest ih =>
    rcases hr : r.success with _ | _ <;> simp [List.filter_cons, hr] <;> omega

/-- The i-th outcome of the batch loop is the outcome of processing the i-th
manual with its own environment, starting from the store left by the
previous manuals. -/
theorem processBatchGo_getD (envs : ℕ → IngestEnv) :
    ∀ (manuals : List (String × String)) (j : ℕ) (store : List StoredChunk) (i : ℕ),
      i < manuals.length →
      (processBatchGo envs j manuals store).1.getD i blankOutcome =
        (processPDFDocument (envs (j + i)) ((manuals.getD i ("", ""))).1
          ((manuals.getD i ("", ""))).2
          (processBatchGo envs j (manuals.take i) store).2).1 := by
  intro manuals
  induction manuals with
  | nil =>
    intro j store i hi
    cases hi
  | cons manual rest ih =>
    intro j store i hi
    cases i with
    | zero =>
      simp only [processBatchGo, List.getD_cons_zero, List.take_zero, Nat.add_zero]
    | succ i =>
      have hi' : i < rest.length := by
        simp only [List.length_cons] at hi
        omega
      simp only [processBatchGo, List.getD_cons_succ, List.take_succ_cons]
      rw [ih (j + 1) _ i hi']
      rw [show j + 1 + i = j + (i + 1) from by omega]

/-- Claim C3: the batch produces exactly one outcome per manual of the
fetched registry batch; the successful and failed counts of the summary add
up to the number of manuals; and each manual's outcome is exactly the result
of processing that manual alone (with its own environment and the store left
by its predecessors) — so one failing document never aborts or alters the
processing of the others. -/
theorem batch_failure_isolation (envs : ℕ → IngestEnv)
    (manuals : List (String × String)) (store : List StoredChunk) :
    ((processBatch envs manuals store).1.results.length = manuals.length) ∧
    ((processBatch envs manuals store).1.successful + (processBatch envs manuals store).1.failed
      = manuals.length) ∧
    (∀ i, i < manuals.length →
      (processBatch envs manuals store).1.results.getD i blankOutcome =
        (processPDFDocument (envs i) ((manuals.getD i ("", ""))).1 ((manuals.getD i ("", ""))).2
          (processBatchGo envs 0 (manuals.take i) store).2).1) := by
  refine ⟨?_, ?_, ?_⟩
  · simp only [processBatch]
    exact processBatchGo_length envs manuals 0 store
  · simp only [processBatch]
    rw [length_filter_partition]
    exact processBatchGo_length envs manuals 0 store
  · intro i hi
    simp only [processBatch]
    simpa using processBatchGo_getD envs manuals 0 store i hi

/-- Witness for C3 at the concrete three-document batch of the spec example:
document 2's download always fails, the batch still attempts all three
documents, and the summary reports 2 successful and 1 failed. -/
theorem batch_failure_isolation_witness :
    (processBatch envsThree manualsThree []).1.results.length = 3 ∧
    (processBatch envsThree manualsThree []).1.successful +
      (processBatch envsThree manualsThree []).1.failed = 3 ∧
    (processBatch envsThree manualsThree []).1.successful = 2 ∧
    (processBatch envsThree manualsThree []).1.failed = 1 ∧
    (processBatch envsThree manualsThree []).1.results.getD 1 blankOutcome =
      (processPDFDocument (envsThree 1) "M2" "u2"
        (processBatchGo envsThree 0 (manualsThree.take 1) []).2).1 :=
  ⟨(batch_failure_isolation envsThree manualsThree []).1,
   (batch_failure_isolation envsThree manualsThree []).2.1,
   by decide, by decide,
   (batch_failure_isolation envsThree manualsThree []).2.2 1 (by decide)⟩
